import Mathlib

/-!
Shallow embedding of `generate_dashboard.py` (a Jira pacing-dashboard
generator) and verification of its specification claims.

The Python script is a single-threaded ETL pass: it fetches issue records
from a paginated search endpoint, classifies them by status group /
completion flag / effective date, buckets completed issues into monthly
intervals, and renders one HTML artifact.  Every definition below mirrors
the corresponding Python function; machine-level concerns that no claim
touches (the HTTP transport, JSON byte encoding) are modelled abstractly
as noted at each definition.
-/

namespace Dashboard

/-! ## Calendar dates

Python `datetime` values in the script always carry a zero time-of-day,
so a date is a (year, month, day) triple ordered lexicographically. -/

structure PyDate where
  year : Nat
  month : Nat
  day : Nat
deriving DecidableEq, Repr

/-- `datetime` comparison `a <= b` (time components are always zero). -/
def dateLeb (a b : PyDate) : Bool :=
  a.year < b.year ||
    (a.year = b.year && (a.month < b.month ||
      (a.month = b.month && a.day ≤ b.day)))

/-- `datetime` comparison `a < b`. -/
def dateLtb (a b : PyDate) : Bool :=
  a.year < b.year ||
    (a.year = b.year && (a.month < b.month ||
      (a.month = b.month && a.day < b.day)))

/-- Gregorian leap-year rule, as used by Python's `calendar` module. -/
def isLeap (y : Nat) : Bool :=
  y % 4 = 0 && (y % 100 ≠ 0 || y % 400 = 0)

/-- `calendar.monthrange(y, m)[1]`: the number of days in month `m` of
year `y` (callers only pass `1 ≤ m ≤ 12`). -/
def monthLength (y m : Nat) : Nat :=
  if m = 2 then (if isLeap y then 29 else 28)
  else if m = 4 || m = 6 || m = 9 || m = 11 then 30
  else 31

/-- Numeric value of a digit string (callers check `isDigit` first). -/
def digitsVal (cs : List Char) : Nat :=
  cs.foldl (fun a c => a * 10 + (c.toNat - '0'.toNat)) 0

/-- Python `str.split(sep)` for a one-character separator, on the
character list: `"a-b".split('-') = ["a","b"]`, `"".split('-') = [""]`,
and empty segments are kept (`"a--b" → ["a","","b"]`). -/
def splitOnChar (c : Char) : List Char → List (List Char)
  | [] => [[]]
  | x :: xs =>
    let r := splitOnChar c xs
    if x = c then [] :: r
    else
      match r with
      | [] => [[x]]
      | h :: t => (x :: h) :: t

/-- `datetime.strptime(s, "%Y-%m-%d")`, modelled after CPython's
`_strptime` regex: `%Y` is exactly four digits, `%m` and `%d` are one or
two digits; the resulting values must form a valid calendar date
(otherwise the `datetime` constructor raises, which the script catches).
Returns `none` exactly when CPython raises. -/
def parseYMD (s : String) : Option PyDate :=
  match splitOnChar '-' s.data with
  | [yc, mc, dc] =>
    if yc.all (·.isDigit) && yc.length = 4 &&
       mc.all (·.isDigit) && (mc.length = 1 || mc.length = 2) &&
       dc.all (·.isDigit) && (dc.length = 1 || dc.length = 2) then
      let y := digitsVal yc
      let m := digitsVal mc
      let d := digitsVal dc
      if 1 ≤ y && 1 ≤ m && m ≤ 12 && 1 ≤ d && d ≤ monthLength y m then
        some ⟨y, m, d⟩
      else none
    else none
  | _ => none

/-- `date_str.split('T')[0]` applied when `'T' in date_str` (the script's
truncation of an ISO timestamp to its date portion): the characters
before the first `'T'`. -/
def truncDatePart (s : String) : String :=
  if s.data.contains 'T' then String.mk (s.data.takeWhile fun c => c ≠ 'T')
  else s

/-- Python `str.lower()`.  The script only lowercases ASCII status names,
so ASCII case mapping (`Char.toLower`) is faithful here. -/
def pyLower (s : String) : String :=
  String.mk (s.data.map Char.toLower)

/-! ## Configuration and status tables (lines 13-35 of the script) -/

def START_DATE : PyDate := ⟨2026, 1, 7⟩
def END_DATE : PyDate := ⟨2026, 3, 31⟩
def PORTFOLIO_KEY : String := "CPF-74"

def COMPLETION_STATUSES : List String :=
  ["Done", "DONE", "Ready for Prod Release", "Pending Deployment",
   "Ready for Deploy/Push", "PM Review", "Ready for Review",
   "Ready for UAT", "Ready for Prod"]

/-- The status-group table.  A Python `dict` iterated in insertion order
is an ordered association list.  The `'Done'` entry is literally the
`COMPLETION_STATUSES` list (the script aliases the same object). -/
def STATUS_GROUPS : List (String × List String) :=
  [("Not Started", ["To Do", "Scoping"]),
   ("Blocked", ["Blocked"]),
   ("Dev In Prog", ["In Progress", "Code Review", "Fix Required"]),
   ("QA", ["In QA", "QA In Progress", "Ready for QA"]),
   ("Done", COMPLETION_STATUSES)]

/-! ## Classifier (lines 37-69) -/

/-- `get_status_group`: `if not status_name` is the Python falsiness test
on a string, i.e. emptiness; the loop over `STATUS_GROUPS.items()` with
`any(s.lower() == status_lower ...)` is a first-match search. -/
def get_status_group (status_name : String) : String :=
  if status_name = "" then "Other"
  else
    let status_lower := pyLower status_name
    match STATUS_GROUPS.find? (fun g => g.2.any fun s => pyLower s = status_lower) with
    | some g => g.1
    | none => "Other"

/-- `is_completed`: Python `status in COMPLETION_STATUSES`, an exact
(case-sensitive) string membership test. -/
def is_completed (status : String) : Bool :=
  COMPLETION_STATUSES.contains status

/-! ## Raw issue records

The script reads a fixed set of paths out of each JSON record, each with
a default for an absent value.  A raw issue is modelled as those paths:
`Option` marks a field whose JSON value may be absent or `null`;
`statusName` carries the `fields.status.name` string with the script's
`''` default already applied (the script always reads it with that
default). -/

structure RawIssue where
  key : Option String
  summary : Option String
  statusName : String
  projectKey : Option String
  projectName : Option String
  issuetypeName : Option String
  assigneeDisplayName : Option (Option String)
  resolutiondate : Option String
  updated : Option String
  parent : Option (Option String)
deriving DecidableEq, Repr

/-- Lines 61-69 of `get_effective_date`: the shared parse of whichever
date field was selected.  `if date_str:` is falsy for both an absent
field and an empty string; the `try`/`except` around `strptime` is the
`Option` result of `parseYMD`. -/
def parseDateField (date_str : Option String) : Option PyDate :=
  match date_str with
  | none => none
  | some s => if s = "" then none else parseYMD (truncDatePart s)

/-- `get_effective_date`: resolution date when the status is literally
`"Done"`, last-updated date otherwise, then the shared parse. -/
def get_effective_date (issue : RawIssue) : Option PyDate :=
  let status := issue.statusName
  let date_str := if status = "Done" then issue.resolutiondate else issue.updated
  parseDateField date_str

/-! ## Interval generator (lines 71-101) -/

/-- One reporting bucket, with its endpoints kept as the formatted
`'%Y-%m-%d'` strings the script stores (re-parsed at use sites). -/
structure Interval where
  start : String
  «end» : String
  label : String
deriving DecidableEq, Repr

/-- Zero-padded two-digit rendering, as in `strftime('%m')`/`%d`. -/
def pad2 (n : Nat) : String :=
  if n < 10 then "0" ++ toString n else toString n

/-- Zero-padded four-digit rendering, as in `strftime('%Y')`. -/
def pad4 (n : Nat) : String :=
  if n < 10 then "000" ++ toString n
  else if n < 100 then "00" ++ toString n
  else if n < 1000 then "0" ++ toString n
  else toString n

/-- `d.strftime('%Y-%m-%d')`. -/
def formatYMD (d : PyDate) : String :=
  pad4 d.year ++ "-" ++ pad2 d.month ++ "-" ++ pad2 d.day

/-- `strftime('%B')`: the English month name (months 1-12). -/
def monthName : Nat → String
  | 1 => "January"
  | 2 => "February"
  | 3 => "March"
  | 4 => "April"
  | 5 => "May"
  | 6 => "June"
  | 7 => "July"
  | 8 => "August"
  | 9 => "September"
  | 10 => "October"
  | 11 => "November"
  | 12 => "December"
  | _ => ""

/-- `current.strftime('%B %Y')`, e.g. `"January 2026"`. -/
def formatMonthYear (d : PyDate) : String :=
  monthName d.month ++ " " ++ toString d.year

/-- The `while current <= END_DATE` loop of `generate_intervals`,
embedded with a fuel parameter (the cursor advances one calendar month
per iteration, so any fuel of at least the number of months in the
configured window makes the fuel case unreachable). -/
def generateIntervalsAux (fuel : Nat) (current : PyDate) : List Interval :=
  match fuel with
  | 0 => []
  | fuel + 1 =>
    if dateLeb current END_DATE then
      let last_day := monthLength current.year current.month
      let month_end0 : PyDate := ⟨current.year, current.month, last_day⟩
      let month_end := if dateLtb END_DATE month_end0 then END_DATE else month_end0
      let iv : Interval :=
        ⟨formatYMD current, formatYMD month_end, formatMonthYear current⟩
      let next : PyDate :=
        if current.month = 12 then ⟨current.year + 1, 1, 1⟩
        else ⟨current.year, current.month + 1, 1⟩
      iv :: generateIntervalsAux fuel next
    else []

/-- `generate_intervals()`: monthly intervals from `START_DATE` to
`END_DATE` (fuel 120 covers any window of up to ten years; the
configured window needs 3 iterations). -/
def generate_intervals : List Interval :=
  generateIntervalsAux 120 START_DATE

/-! ## Processor (lines 236-337) -/

/-- Python falsiness of an optional string (`not week_label` is true for
both `None` and `''`). -/
def pyFalsy : Option String → Bool
  | none => true
  | some s => s = ""

/-- The containment test of the interval loop (lines 296-301): both
endpoint strings are re-parsed with `strptime('%Y-%m-%d')` and the
effective date must lie between them inclusively.  The endpoints of
every interval the script builds always parse; an unparsable endpoint
would make `strptime` raise, which never happens on `generate_intervals`
output, so that branch is modelled as a non-match. -/
def intervalContains (iv : Interval) (d : PyDate) : Bool :=
  match parseYMD iv.start, parseYMD iv.«end» with
  | some a, some b => dateLeb a d && dateLeb d b
  | _, _ => false

/-- Lines 293-304: the week-label computation for one issue.  The
first-match loop with `break` is `List.find?`; the fallback runs when
the label so far is falsy and the effective date precedes `START_DATE`,
taking the first interval's label (or `None` on an empty interval
list). -/
def computeWeekLabel (status_name : String) (effective_date : Option PyDate)
    (intervals : List Interval) : Option String :=
  if is_completed status_name && effective_date.isSome then
    match effective_date with
    | none => none
    | some d =>
      let week_label := (intervals.find? (fun iv => intervalContains iv d)).map (·.label)
      if pyFalsy week_label && dateLtb d START_DATE then
        match intervals with
        | [] => none
        | iv :: _ => some iv.label
      else week_label
  else none

/-- The per-issue record appended to `processed` (lines 311-324). -/
structure ProcessedIssue where
  key : Option String
  summary : String
  status : String
  statusGroup : String
  project : String
  projectName : String
  issueType : String
  assignee : String
  isCompleted : Bool
  effectiveDate : Option String
  weekLabel : Option String
  parent : Option String
deriving DecidableEq, Repr

/-- The body of the per-issue loop of `process_issues` (lines 277-324),
producing one `ProcessedIssue` from one raw record. -/
def process_issue (intervals : List Interval) (issue : RawIssue) : ProcessedIssue :=
  let project_key := issue.projectKey.getD "Unknown"
  let project_name := issue.projectName.getD project_key
  let status_name := issue.statusName
  let issue_type := issue.issuetypeName.getD "Unknown"
  let status_group := get_status_group status_name
  let effective_date := get_effective_date issue
  let effective_date_str := effective_date.map formatYMD
  let week_label := computeWeekLabel status_name effective_date intervals
  let parent_key :=
    match issue.parent with
    | none => none
    | some k => k
  { key := issue.key
    summary := issue.summary.getD ""
    status := status_name
    statusGroup := status_group
    project := project_key
    projectName := project_name
    issueType := issue_type
    assignee :=
      match issue.assigneeDisplayName with
      | none => "Unassigned"
      | some dn => dn.getD "Unassigned"
    isCompleted := is_completed status_name
    effectiveDate := effective_date_str
    weekLabel := week_label
    parent := parent_key }

/-- `process_initiative` (lines 236-243). -/
structure ProcessedInitiative where
  key : Option String
  summary : String
  status : String
deriving DecidableEq, Repr

def process_initiative (issue : RawIssue) : ProcessedInitiative :=
  { key := issue.key
    summary := issue.summary.getD ""
    status := issue.statusName }

/-- `process_epic` (lines 245-256). -/
structure ProcessedEpic where
  key : Option String
  summary : String
  status : String
  parent : Option String
deriving DecidableEq, Repr

def process_epic (issue : RawIssue) : ProcessedEpic :=
  { key := issue.key
    summary := issue.summary.getD ""
    status := issue.statusName
    parent :=
      match issue.parent with
      | none => none
      | some k => k }

/-- Insertion into the `projects` dict: an existing key keeps its
position and gets the new value (last write wins); a new key is
appended. -/
def insertAssoc (m : List (String × String)) (k v : String) : List (String × String) :=
  if m.any (fun p => p.1 = k) then
    m.map (fun p => if p.1 = k then (k, v) else p)
  else m ++ [(k, v)]

/-- Membership-preserving accumulation into a Python `set`, kept in
first-insertion order (the script sorts afterwards, so only the
underlying set of elements matters). -/
def addToSet (l : List String) (x : String) : List String :=
  if l.contains x then l else l ++ [x]

/-- Insertion sort by Lean's lexicographic `String` order, which agrees
with Python's `sorted` on strings (both compare code points). -/
def insertSorted (x : String) : List String → List String
  | [] => [x]
  | y :: ys => if x ≤ y then x :: y :: ys else y :: insertSorted x ys

def sortStrings (l : List String) : List String :=
  l.foldr insertSorted []

/-- The dataset returned by `process_issues` (lines 326-337).
`lastUpdated` is `datetime.utcnow()` formatted; the clock is an input
of the embedding. -/
structure Dataset where
  issues : List ProcessedIssue
  initiatives : List ProcessedInitiative
  epics : List ProcessedEpic
  projects : List (String × String)
  issueTypes : List String
  statusGroups : List String
  intervals : List Interval
  startDate : String
  endDate : String
  lastUpdated : String
deriving DecidableEq, Repr

/-- `process_issues` (lines 258-337). -/
def process_issues (issues : List RawIssue) (intervals : List Interval)
    (initiatives epics : List RawIssue) (now : String) : Dataset :=
  let processed := issues.map (process_issue intervals)
  let projects := issues.foldl
    (fun m i =>
      let pk := i.projectKey.getD "Unknown"
      insertAssoc m pk (i.projectName.getD pk)) []
  let issue_types := issues.foldl
    (fun s i => addToSet s (i.issuetypeName.getD "Unknown")) []
  let status_groups := issues.foldl
    (fun s i => addToSet s (get_status_group i.statusName)) []
  { issues := processed
    initiatives := initiatives.map process_initiative
    epics := epics.map process_epic
    projects := projects
    issueTypes := sortStrings issue_types
    statusGroups := sortStrings status_groups
    intervals := intervals
    startDate := formatYMD START_DATE
    endDate := formatYMD END_DATE
    lastUpdated := now }

/-! ## Remote fetcher (lines 103-234)

The HTTP transport is modelled as a deterministic server: a function
from the continuation token carried by the request (`none` on the first
page) to the response.  A response is either a raised transport
exception (the `except` branch) or a status code with the decoded JSON
body: the page's issue list and optional `nextPageToken`. -/

structure Page where
  issues : List RawIssue
  nextPageToken : Option String
deriving DecidableEq, Repr

inductive FetchResponse where
  | exn : FetchResponse
  | ok : Nat → Page → FetchResponse
deriving DecidableEq, Repr

/-- Fuel bound for the `while True` pagination loops.  The script would
loop forever on a server that keeps returning fresh tokens; all theorems
below concern terminating scenarios, where the fuel case is
unreachable. -/
def fetchFuel : Nat := 1000

/-- The pagination loop of `fetch_issues_by_jql` (lines 108-136): stop
with the accumulated list on an exception or a non-200 status, extend
the accumulator with the page's issues, and stop when the returned
token is falsy (`None` or empty). -/
def fetchLoop (server : Option String → FetchResponse) :
    Nat → List RawIssue → Option String → List RawIssue
  | 0, acc, _ => acc
  | fuel + 1, acc, tok =>
    match server tok with
    | .exn => acc
    | .ok status page =>
      if status ≠ 200 then acc
      else
        let acc2 := acc ++ page.issues
        match page.nextPageToken with
        | none => acc2
        | some t => if t = "" then acc2 else fetchLoop server fuel acc2 (some t)

/-- `fetch_issues_by_jql` on a given server (the JQL text and field
projection are fixed per call site and folded into the server). -/
def fetch_issues_by_jql (server : Option String → FetchResponse) : List RawIssue :=
  fetchLoop server fetchFuel [] none

/-- The inlined child-issue pagination loop of `fetch_jira_issues`
(lines 203-231).  Unlike `fetchLoop`, an exception or a non-200 status
makes the whole of `fetch_jira_issues` return `[], [], []`, modelled
here as `none` (the partial accumulation is discarded). -/
def childFetchLoop (server : Option String → FetchResponse) :
    Nat → List RawIssue → Option String → Option (List RawIssue)
  | 0, acc, _ => some acc
  | fuel + 1, acc, tok =>
    match server tok with
    | .exn => none
    | .ok status page =>
      if status ≠ 200 then none
      else
        let acc2 := acc ++ page.issues
        match page.nextPageToken with
        | none => some acc2
        | some t => if t = "" then some acc2 else childFetchLoop server fuel acc2 (some t)

/-- The environment of a run: the two credential strings (empty when the
variable is unset, matching `os.environ.get(..., '')`) and the remote
service, indexed by the JQL text of the request. -/
structure JiraEnv where
  jiraEmail : String
  jiraApiToken : String
  server : String → Option String → FetchResponse

def initiativesJql : String :=
  "parent = " ++ PORTFOLIO_KEY ++ " AND issuetype = Initiative"

def epicsJql (batch : List String) : String :=
  "parent in (" ++ String.intercalate "," batch ++ ") AND issuetype = Epic"

/-- The child-issue JQL literal (lines 177-197), with the portfolio key
interpolated. -/
def childJql : String :=
  "parent in portfolioChildIssuesOf(\"" ++ PORTFOLIO_KEY ++ "\")\n" ++
  "AND issuetype NOT IN (\n" ++
  "  Initiative, Epic, \"Sub Test Execution\", \"Test Execution\",\n" ++
  "  Test, \"Test Plan\", \"Test Case\", \"Test Automation\", Sub-task\n" ++
  ")\n" ++
  "AND status NOT IN (Canceled, Cancelled, \"Will Not Do\", \"Resolved as Duplicate\")\n" ++
  "AND project NOT IN (\n" ++
  "  \"QA Shared Services\", \"QA Enterprise Systems\",\n" ++
  "  \"QA Grading & Operations\", \"QA PCGS\", \"QA PSA Platform\")\n" ++
  "AND parent not in (NS-1095)\n" ++
  "AND key NOT IN (ESB-30,ESB-68)\n" ++
  "AND NOT (\n" ++
  "  (status = DONE\n" ++
  "   AND resolutiondate <= \"2026-01-06\")\n" ++
  "  OR\n" ++
  "  (status IN (\"Ready for Prod Release\",\n" ++
  "              \"Pending Deployment\",\n" ++
  "              \"Ready for Deploy/Push\")\n" ++
  "   AND updated <= \"2026-01-06\")\n" ++
  ")\n" ++
  "ORDER BY resolutiondate DESC, updatedDate ASC"

/-- `fetch_initiatives` (lines 138-143). -/
def fetch_initiatives (env : JiraEnv) : List RawIssue :=
  fetch_issues_by_jql (env.server initiativesJql)

/-- `fetch_epics_for_initiatives` (lines 145-159): the keys are batched
in groups of 20 (`range(0, len, 20)`) and the per-batch results are
concatenated. -/
def fetch_epics_for_initiatives (env : JiraEnv) (initiative_keys : List String) :
    List RawIssue :=
  if initiative_keys = [] then []
  else
    ((List.range ((initiative_keys.length + 19) / 20)).map
        (fun i => (initiative_keys.drop (20 * i)).take 20)).foldl
      (fun acc batch => acc ++ fetch_issues_by_jql (env.server (epicsJql batch)))
      []

/-- `fetch_jira_issues` (lines 161-234): empty credentials abort before
any network call; an error in the inlined child loop discards
everything, including the initiatives and epics already fetched.
(`i['key']` on an initiative is modelled with a `""` default for an
absent key; a missing key would raise, which no claim exercises.) -/
def fetch_jira_issues (env : JiraEnv) :
    List RawIssue × List RawIssue × List RawIssue :=
  if env.jiraEmail = "" || env.jiraApiToken = "" then ([], [], [])
  else
    let initiatives := fetch_initiatives env
    let initiative_keys := initiatives.map (fun i => i.key.getD "")
    let epics := fetch_epics_for_initiatives env initiative_keys
    match childFetchLoop (env.server childJql) fetchFuel [] none with
    | none => ([], [], [])
    | some issues => (issues, initiatives, epics)

/-! ## Renderer and main (lines 339-394) -/

/-- The rendered document.  `generate_html` substitutes
`json.dumps(data)` for the placeholder in the template text; the byte
encoding of the JSON payload is external to every claim, so the
document is modelled as the pair of template text and dataset it is a
function of. -/
structure RenderedDoc where
  template : String
  data : Dataset
deriving DecidableEq, Repr

def generate_html (template : String) (data : Dataset) : RenderedDoc :=
  ⟨template, data⟩

/-- How a run of `main()` ended: a normal return of `True`/`False`
(mapped by `__main__` to exit codes 0/1), or an uncaught exception
(also a failure exit). -/
inductive RunOutcome where
  | finished : Bool → RunOutcome
  | raised : RunOutcome
deriving DecidableEq, Repr

/-- `main()` (lines 352-390): the outcome together with the list of
artifacts written to `docs/index.html` (empty when nothing is written).
`template` is the content of `dashboard_template.html`, `none` when the
file is missing (the read then raises, before any write); `now` is the
formatted `datetime.utcnow()`. -/
def mainRun (env : JiraEnv) (template : Option String) (now : String) :
    RunOutcome × List RenderedDoc :=
  match fetch_jira_issues env with
  | (issues, initiatives, epics) =>
    if issues = [] then (.finished false, [])
    else
      let intervals := generate_intervals
      let data := process_issues issues intervals initiatives epics now
      match template with
      | none => (.raised, [])
      | some tpl => (.finished true, [generate_html tpl data])

/-! ## Spec-side comparison definition and concrete fetch scenarios -/

/-- Spec-side restatement of the interval-assignment rule (spec §4.4),
written from the spec's words for comparison with the code's
`computeWeekLabel`: a completed issue with a non-null effective date is
assigned the label of the first interval containing the date
inclusively; failing that, the first interval's label when the date
precedes the configured start date; null in every other case. -/
def weekLabelSpec (completed : Bool) (eff : Option PyDate)
    (intervals : List Interval) : Option String :=
  match completed, eff with
  | true, some d =>
    (match intervals.find? (fun iv => intervalContains iv d) with
     | some iv => some iv.label
     | none =>
       if dateLtb d START_DATE then intervals.head?.map (·.label) else none)
  | _, _ => none

/-- A raw issue used as concrete page content in fetch scenarios. -/
def issueA : RawIssue :=
  ⟨some "K-1", some "first", "Done", none, none, none, none,
   some "2026-02-15T10:00:00Z", none, none⟩

def issueB : RawIssue :=
  ⟨some "K-2", some "second", "To Do", none, none, none, none, none,
   some "2026-02-20T10:00:00Z", none⟩

/-- A server answering the first request with one page and a token, and
the request carrying that token with a final page. -/
def serverTwoPages : Option String → FetchResponse
  | none => .ok 200 ⟨[issueA], some "page2"⟩
  | some t => if t = "page2" then .ok 200 ⟨[issueB], none⟩ else .exn

/-- An environment whose child-issue query succeeds on page one (with a
continuation token) and raises on page two; the initiative and epic
queries return empty result pages. -/
def envChildError : JiraEnv :=
  ⟨"user@example.com", "token123",
   fun jql tok =>
     if jql = childJql then
       match tok with
       | none => .ok 200 ⟨[issueA], some "t1"⟩
       | some _ => .exn
     else .ok 200 ⟨[], none⟩⟩

/-- A server whose second page raises, for the shared-helper error
scenario. -/
def serverPageTwoError : Option String → FetchResponse
  | none => .ok 200 ⟨[issueA], some "tokE"⟩
  | some _ => .exn

/-- An environment with the email credential unset. -/
def envNoCreds : JiraEnv := ⟨"", "token123", fun _ _ => .exn⟩

/-! ## Supporting lemmas -/

/-- `pyLower` maps the empty string, and only it, to the empty string. -/
lemma pyLower_eq_empty_iff (s : String) : pyLower s = "" ↔ s = "" := by
  simp [pyLower, String.ext_iff]

/-- The three intervals generated for the configured window. -/
lemma generate_intervals_eq :
    generate_intervals =
      [⟨"2026-01-07", "2026-01-31", "January 2026"⟩,
       ⟨"2026-02-01", "2026-02-28", "February 2026"⟩,
       ⟨"2026-03-01", "2026-03-31", "March 2026"⟩] := by
  decide

/-- On the generated intervals, the code's week-label computation agrees
with the spec-side rule. -/
lemma computeWeekLabel_eq_spec (s : String) (eff : Option PyDate) :
    computeWeekLabel s eff generate_intervals =
      weekLabelSpec (is_completed s) eff generate_intervals := by
  cases hc : is_completed s with
  | false => cases eff <;> simp [computeWeekLabel, weekLabelSpec, hc]
  | true =>
    cases eff with
    | none => simp [computeWeekLabel, weekLabelSpec, hc]
    | some d =>
      cases hf : generate_intervals.find? (fun iv => intervalContains iv d) with
      | none =>
        simp only [computeWeekLabel, weekLabelSpec, hc, Option.isSome_some,
          Bool.and_self, if_true, hf, Option.map_none', pyFalsy, Bool.true_and]
        rw [generate_intervals_eq]
        by_cases hd : dateLtb d START_DATE <;> simp [hd]
      | some iv =>
        have hmem : iv ∈ generate_intervals := List.mem_of_find?_eq_some hf
        have hlab : iv.label ≠ "" := by
          rw [generate_intervals_eq] at hmem
          fin_cases hmem <;> decide
        simp [computeWeekLabel, weekLabelSpec, hc, hf, pyFalsy, hlab]

/-- One unfolding step of the pagination loop. -/
lemma fetchLoop_succ (server : Option String → FetchResponse) (n : Nat)
    (acc : List RawIssue) (tok : Option String) :
    fetchLoop server (n + 1) acc tok =
      match server tok with
      | .exn => acc
      | .ok status page =>
        if status ≠ 200 then acc
        else
          let acc2 := acc ++ page.issues
          match page.nextPageToken with
          | none => acc2
          | some t => if t = "" then acc2 else fetchLoop server n acc2 (some t) :=
  rfl

/-- One unfolding step of the inlined child-issue loop. -/
lemma childFetchLoop_succ (server : Option String → FetchResponse) (n : Nat)
    (acc : List RawIssue) (tok : Option String) :
    childFetchLoop server (n + 1) acc tok =
      match server tok with
      | .exn => none
      | .ok status page =>
        if status ≠ 200 then none
        else
          let acc2 := acc ++ page.issues
          match page.nextPageToken with
          | none => some acc2
          | some t =>
            if t = "" then some acc2 else childFetchLoop server n acc2 (some t) :=
  rfl

end Dashboard

/-! ## The claims -/

namespace Claims
open Dashboard

/-- C1 (counterexample): the status-group lookup of `"in progress"`
returns the literal group label `"Dev In Prog"`, not `"Dev In Progress"`
as the claim states. -/
theorem c1_counterexample :
    get_status_group "in progress" ≠ "Dev In Progress" ∧
    get_status_group "IN PROGRESS" ≠ "Dev In Progress" ∧
    get_status_group "in progress" = "Dev In Prog" := by
  decide

/-- C1 (amended): the status-group lookup is a case-insensitive exact
match of the full status string against the fixed group table, returning
the first matching group and `"Other"` when no entry matches; both
`statusGroup("in progress")` and `statusGroup("IN PROGRESS")` equal the
table's literal label `"Dev In Prog"`. -/
theorem c1_status_group_lookup :
    (∀ s t : String, pyLower s = pyLower t →
        get_status_group s = get_status_group t) ∧
    get_status_group "in progress" = "Dev In Prog" ∧
    get_status_group "IN PROGRESS" = "Dev In Prog" ∧
    (∀ s : String,
        (∀ g ∈ STATUS_GROUPS, ∀ e ∈ g.2, pyLower e ≠ pyLower s) →
        get_status_group s = "Other") := by
  refine ⟨?_, by decide, by decide, ?_⟩
  · intro s t h
    by_cases hs : s = ""
    · subst hs
      have ht : t = "" := by
        rw [← pyLower_eq_empty_iff]
        exact h.symm.trans (by decide)
      subst ht; rfl
    · have ht : t ≠ "" := by
        intro ht
        subst ht
        exact hs ((pyLower_eq_empty_iff s).1 (h.trans (by decide)))
      simp only [get_status_group, if_neg hs, if_neg ht, h]
  · intro s h
    by_cases hs : s = ""
    · subst hs; rfl
    · have hfind :
          STATUS_GROUPS.find? (fun g => g.2.any fun e => pyLower e = pyLower s) =
            none := by
        rw [List.find?_eq_none]
        intro g hg
        simp only [List.any_eq_true, decide_eq_true_eq, not_exists, not_and]
        intro e he
        exact h g hg e he
      simp only [get_status_group, if_neg hs, hfind]

theorem c1_witness :
    get_status_group "To Do" = get_status_group "tO dO" ∧
    get_status_group "Random Status" = "Other" :=
  ⟨c1_status_group_lookup.1 "To Do" "tO dO" (by decide),
   c1_status_group_lookup.2.2.2 "Random Status" (by decide)⟩

/-- C2: `is_completed` is an exact, case-sensitive membership test
against the fixed completion-status literals; lowercase `"done"` is not
completed while `"Done"` is. -/
theorem c2_is_completed_exact :
    (∀ s : String, is_completed s = true ↔ s ∈ COMPLETION_STATUSES) ∧
    is_completed "done" = false ∧
    is_completed "Done" = true := by
  refine ⟨?_, by decide, by decide⟩
  intro s
  simp [is_completed, List.contains, List.elem_iff]

/-- C3 (counterexample): the completion list is not disjoint from the
`"Done"` group's entries — the table's `"Done"` entry is literally the
completion list itself — and `is_completed "DONE"` is true, not false. -/
theorem c3_counterexample :
    is_completed "DONE" = true ∧
    STATUS_GROUPS.lookup "Done" = some COMPLETION_STATUSES ∧
    COMPLETION_STATUSES ≠ [] := by
  decide

/-- C3 (amended): the `"Done"` entry of the status-group table is
exactly the completion-status list (so the two share every element),
and both `is_completed "Done"` and `is_completed "DONE"` are true. -/
theorem c3_done_group_is_completion_list :
    STATUS_GROUPS.lookup "Done" = some COMPLETION_STATUSES ∧
    (∃ s, s ∈ COMPLETION_STATUSES ∧
      s ∈ (STATUS_GROUPS.lookup "Done").getD []) ∧
    is_completed "Done" = true ∧
    is_completed "DONE" = true := by
  refine ⟨by decide, ⟨"Done", by decide, by decide⟩, by decide, by decide⟩

/-- C4: the effective date is the resolution-date field when the status
literally equals `"Done"` and the last-updated field otherwise; the
selected field is truncated at `'T'` before parsing, and an absent or
unparsable field yields a null date (never an abort — the parse is a
total function into `Option`). -/
theorem c4_effective_date :
    (∀ issue : RawIssue, issue.statusName = "Done" →
        get_effective_date issue = parseDateField issue.resolutiondate) ∧
    (∀ issue : RawIssue, issue.statusName ≠ "Done" →
        get_effective_date issue = parseDateField issue.updated) ∧
    (∀ s : String, parseDateField (some s) =
        if s = "" then none else parseYMD (truncDatePart s)) ∧
    parseDateField none = none ∧
    parseDateField (some "2026-02-15T10:00:00Z") = some ⟨2026, 2, 15⟩ ∧
    parseDateField (some "not a date") = none := by
  refine ⟨?_, ?_, fun s => rfl, rfl, by decide, by decide⟩
  · intro issue h
    simp [get_effective_date, h]
  · intro issue h
    simp [get_effective_date, if_neg h]

theorem c4_witness :
    get_effective_date
        ⟨none, none, "Done", none, none, none, none,
         some "2026-02-15T10:00:00Z", none, none⟩ =
      parseDateField (some "2026-02-15T10:00:00Z") ∧
    get_effective_date
        ⟨none, none, "In Progress", none, none, none, none, none,
         some "2026-02-14", none⟩ =
      parseDateField (some "2026-02-14") :=
  ⟨c4_effective_date.1 _ rfl, c4_effective_date.2.1 _ (by decide)⟩

/-- C5: the interval generator yields exactly one interval per calendar
month of the configured window, each ending on the last day of its month
clipped to the configured end date, so for 2026-01-07 .. 2026-03-31
exactly the three monthly intervals below, the last ending exactly on
the end date. -/
theorem c5_intervals :
    generate_intervals =
      [⟨"2026-01-07", "2026-01-31", "January 2026"⟩,
       ⟨"2026-02-01", "2026-02-28", "February 2026"⟩,
       ⟨"2026-03-01", "2026-03-31", "March 2026"⟩] ∧
    (generate_intervals.map (·.«end»)).getLast? = some (formatYMD END_DATE) := by
  exact ⟨by decide, by decide⟩

/-- C6: for every processed child issue (bucketed against the generated
intervals), the interval label equals the spec rule: the first interval
containing the effective date when the issue is completed with a
non-null date, the first interval's label when the date precedes the
configured start, and null otherwise — in particular null for every
non-completed issue. -/
theorem c6_week_label :
    ∀ issue : RawIssue,
      (process_issue generate_intervals issue).weekLabel =
        weekLabelSpec (is_completed issue.statusName)
          (get_effective_date issue) generate_intervals := by
  intro issue
  exact computeWeekLabel_eq_spec issue.statusName (get_effective_date issue)

/-- C10: every status accepted by `is_completed` is classified into the
`"Done"` status group (the table's `"Done"` entry is the completion
list itself, and no earlier group matches any completion status), so a
completed issue never carries any other status group. -/
theorem c10_completed_implies_done_group :
    (∀ s : String, is_completed s = true → get_status_group s = "Done") ∧
    STATUS_GROUPS.lookup "Done" = some COMPLETION_STATUSES := by
  refine ⟨?_, by decide⟩
  intro s h
  have hmem : s ∈ COMPLETION_STATUSES := by
    simpa [is_completed, List.contains, List.elem_iff] using h
  fin_cases hmem <;> decide

theorem c10_witness : get_status_group "Ready for UAT" = "Done" :=
  c10_completed_implies_done_group.1 "Ready for UAT" (by decide)

/-- C7: the paginated fetch repeats the request with the returned
continuation token until none is returned, concatenating the pages'
records in order: a token on page one and none on page two yields page
one's records followed by page two's. -/
theorem c7_pagination :
    ∀ (server : Option String → FetchResponse) (p1 p2 : List RawIssue)
      (t : String),
      t ≠ "" →
      server none = .ok 200 ⟨p1, some t⟩ →
      server (some t) = .ok 200 ⟨p2, none⟩ →
      fetch_issues_by_jql server = p1 ++ p2 := by
  intro server p1 p2 t ht h1 h2
  rw [fetch_issues_by_jql, show fetchFuel = 999 + 1 from rfl, fetchLoop_succ, h1]
  simp only [ne_eq, not_true_eq_false, if_false, List.nil_append, ht,
    if_neg ht]
  rw [show (999 : Nat) = 998 + 1 from rfl, fetchLoop_succ, h2]
  simp

theorem c7_witness : fetch_issues_by_jql serverTwoPages = [issueA] ++ [issueB] :=
  c7_pagination serverTwoPages [issueA] [issueB] "page2" (by decide) rfl
    (by decide)

set_option maxRecDepth 10000 in
/-- C8 (counterexample): in the inlined child-issue loop, an error on
page two does not return the page-one records already accumulated — it
makes `fetch_jira_issues` return three empty lists, discarding them. -/
theorem c8_counterexample :
    envChildError.server childJql none = .ok 200 ⟨[issueA], some "t1"⟩ ∧
    envChildError.server childJql (some "t1") = .exn ∧
    fetch_jira_issues envChildError = ([], [], []) ∧
    (fetch_jira_issues envChildError).1 ≠ [issueA] := by
  decide

/-- C8 (amended): on a transport error or non-success status, the
shared fetch helper (the initiative and epic call sites) stops with no
retry and returns exactly the records accumulated from the pages
already received; the inlined child-issue loop instead stops and makes
the whole fetch return three empty lists, discarding its partial
accumulation together with the initiatives and epics already fetched. -/
theorem c8_fetch_error_handling :
    (∀ (server : Option String → FetchResponse) (p1 : List RawIssue)
       (t : String),
       t ≠ "" →
       server none = .ok 200 ⟨p1, some t⟩ →
       (server (some t) = .exn ∨
         ∃ st pg, st ≠ 200 ∧ server (some t) = .ok st pg) →
       fetch_issues_by_jql server = p1) ∧
    (∀ (env : JiraEnv) (p1 : List RawIssue) (t : String),
       t ≠ "" →
       env.server childJql none = .ok 200 ⟨p1, some t⟩ →
       env.server childJql (some t) = .exn →
       fetch_jira_issues env = ([], [], [])) := by
  constructor
  · intro server p1 t ht h1 h2
    rw [fetch_issues_by_jql, show fetchFuel = 999 + 1 from rfl, fetchLoop_succ,
      h1]
    simp only [ne_eq, not_true_eq_false, if_false, List.nil_append, ht,
      if_neg ht]
    rw [show (999 : Nat) = 998 + 1 from rfl, fetchLoop_succ]
    rcases h2 with h2 | ⟨st, pg, hst, h2⟩
    · rw [h2]
    · rw [h2]
      simp [hst]
  · intro env p1 t ht h1 h2
    have hchild :
        childFetchLoop (env.server childJql) fetchFuel [] none = none := by
      rw [show fetchFuel = 999 + 1 from rfl, childFetchLoop_succ, h1]
      simp only [ne_eq, not_true_eq_false, if_false, List.nil_append, ht,
        if_neg ht]
      rw [show (999 : Nat) = 998 + 1 from rfl, childFetchLoop_succ, h2]
    by_cases hcred : env.jiraEmail = "" || env.jiraApiToken = ""
    · simp [fetch_jira_issues, hcred]
    · simp [fetch_jira_issues, hcred, hchild]

set_option maxRecDepth 10000 in
theorem c8_witness :
    fetch_issues_by_jql serverPageTwoError = [issueA] ∧
    fetch_jira_issues envChildError = ([], [], []) :=
  ⟨c8_fetch_error_handling.1 serverPageTwoError [issueA] "tokE" (by decide)
      rfl (Or.inl rfl),
   c8_fetch_error_handling.2 envChildError [issueA] "t1" (by decide)
      (by decide) (by decide)⟩

/-- C9: the run succeeds exactly when at least one child issue was
fetched (given a readable template); with zero child issues — which
includes the missing-credentials case — it returns the failure
indicator and writes no artifact, leaving any previous one untouched. -/
theorem c9_exit_contract :
    (∀ (env : JiraEnv) (tpl now : String),
        ((mainRun env (some tpl) now).1 = RunOutcome.finished true ↔
          (fetch_jira_issues env).1 ≠ [])) ∧
    (∀ (env : JiraEnv) (template : Option String) (now : String),
        (fetch_jira_issues env).1 = [] →
        mainRun env template now = (RunOutcome.finished false, [])) ∧
    (∀ env : JiraEnv, env.jiraEmail = "" ∨ env.jiraApiToken = "" →
        fetch_jira_issues env = ([], [], [])) := by
  refine ⟨?_, ?_, ?_⟩
  · intro env tpl now
    rcases hfe : fetch_jira_issues env with ⟨issues, inits, epics⟩
    by_cases hi : issues = [] <;> simp [mainRun, hfe, hi]
  · intro env template now h
    rcases hfe : fetch_jira_issues env with ⟨issues, inits, epics⟩
    rw [hfe] at h
    simp only at h
    simp [mainRun, hfe, h]
  · intro env h
    rcases h with h | h <;> simp [fetch_jira_issues, h]

theorem c9_witness :
    mainRun envNoCreds (some "TEMPLATE") "2026-01-01T00:00:00Z" =
      (RunOutcome.finished false, []) ∧
    fetch_jira_issues envNoCreds = ([], [], []) :=
  ⟨c9_exit_contract.2.1 envNoCreds (some "TEMPLATE") "2026-01-01T00:00:00Z"
      (by decide),
   c9_exit_contract.2.2 envNoCreds (Or.inl rfl)⟩

end Claims
